import Mathlib

/-!
Stock Health Monitor — dashboard pipeline, formalized

A shallow embedding of the dashboard computation of
`streamlit_app.py` (Stock-Health-System).  A loaded snapshot is a list
of `StockRow`; the dashboard branch

* replaces a zero `AVG_DAILY_USAGE` by `0.01` (line 66),
* derives `DAYS_UNTIL_STOCKOUT = (CLOSING_STOCK / AVG_DAILY_USAGE).round(1)`
  (line 69),
* classifies each row with `classify_stock` (lines 72–82),
* stops with an error when the frame is empty (lines 85–87),
* builds the heatmap by mean aggregation over (ITEM, LOCATION)
  (lines 111–113),
* filters and sorts the alert and reorder frames (lines 143–144 and
  179–180) and computes the reorder roll-ups (lines 188–191).

Numeric columns are embedded as exact rationals (`ℚ`); `.round(1)` is
the numpy round-half-to-even rule at one decimal, embedded exactly on `ℚ`.
`sort_values` is called with its default `kind` (numpy quicksort), which
pandas documents as an ascending reordering that is *not* stable (only
`kind="mergesort"`/`"stable"` guarantee stable ties), so the sort is
modeled relationally by `SortValuesSpec`: any output that is a
permutation of its input and ascending in `DAYS_UNTIL_STOCKOUT` is
admissible, the tie order being unspecified.
-/

/-- One row of the snapshot loaded from `stock_health_metrics`
(the eleven selected columns of the dashboard query, lines 49–55).
`days_until_stockout` and `stock_status` hold the upstream-computed
values, which the dashboard overwrites before use. -/
structure StockRow where
  location : String
  item : String
  date : String
  closing_stock : ℤ
  issued : ℤ
  avg_daily_usage : ℚ
  days_until_stockout : ℚ
  stock_status : String
  suggested_reorder_qty : ℤ
  lead_time_days : ℤ
  reorder_level : ℤ
deriving DecidableEq, Repr

/-- Round a rational to the nearest integer, ties to even — the rounding
used by `Series.round` (numpy half-to-even), on exact rationals. -/
def roundHalfEven (x : ℚ) : ℤ :=
  if x - (x.floor : ℚ) < 1/2 then x.floor
  else if 1/2 < x - (x.floor : ℚ) then x.floor + 1
  else if x.floor % 2 = 0 then x.floor else x.floor + 1

/-- `Series.round(1)`: round to one decimal place. -/
def round1 (x : ℚ) : ℚ := (roundHalfEven (10 * x) : ℚ) / 10

/-- Line 66: `df["AVG_DAILY_USAGE"].replace(0, 0.01)` applied to one
cell — the value `0` (and only the value `0`) is replaced by `0.01`. -/
def replaceZeroUsage (u : ℚ) : ℚ := if u = 0 then 1/100 else u

/-- Line 66 applied to the frame: overwrite the `AVG_DAILY_USAGE`
column with its zero-replaced value. -/
def applyUsageReplace (df : List StockRow) : List StockRow :=
  df.map fun r => { r with avg_daily_usage := replaceZeroUsage r.avg_daily_usage }

/-- Line 69: `df["DAYS_UNTIL_STOCKOUT"] = (df["CLOSING_STOCK"] /
df["AVG_DAILY_USAGE"]).round(1)` — computed from the (already
replaced) `AVG_DAILY_USAGE` column. -/
def applyDaysUntilStockout (df : List StockRow) : List StockRow :=
  df.map fun r =>
    { r with days_until_stockout := round1 ((r.closing_stock : ℚ) / r.avg_daily_usage) }

/-- Lines 72–80: the status classifier, a pure function of the
`DAYS_UNTIL_STOCKOUT` value of the row. -/
def classify_stock (row : StockRow) : String :=
  if row.days_until_stockout ≤ 2 then "CRITICAL"
  else if row.days_until_stockout ≤ 5 then "WARNING"
  else if row.days_until_stockout ≤ 10 then "HEALTHY"
  else "OVERSTOCK"

/-- Line 82: `df["STOCK_STATUS"] = df.apply(classify_stock, axis=1)`. -/
def applyStockStatus (df : List StockRow) : List StockRow :=
  df.map fun r => { r with stock_status := classify_stock r }

/-- Lines 66–82 in source order: usage replacement, then depletion
horizon, then status classification. -/
def processSnapshot (df : List StockRow) : List StockRow :=
  applyStockStatus (applyDaysUntilStockout (applyUsageReplace df))

/-- The effect of lines 66–82 on a single row: only the
`avg_daily_usage`, `days_until_stockout` and `stock_status` fields are
overwritten. -/
def procRow (r : StockRow) : StockRow :=
  let r1 := { r with avg_daily_usage := replaceZeroUsage r.avg_daily_usage }
  let r2 := { r1 with
    days_until_stockout := round1 ((r1.closing_stock : ℚ) / r1.avg_daily_usage) }
  { r2 with stock_status := classify_stock r2 }

/-- Line 86 error text (shown before `st.stop()`). -/
def noDataMessage : String := "No data found! Make sure stock_health_metrics table exists."

/-- Lines 85–87: after deriving the three columns, an empty frame
raises the blocking error and `st.stop()` halts the script, so no
downstream component runs; otherwise the processed frame flows on. -/
def dashboardRun (df : List StockRow) : Except String (List StockRow) :=
  if (processSnapshot df).isEmpty then Except.error noDataMessage
  else Except.ok (processSnapshot df)

/-- Comparison on the sort key `DAYS_UNTIL_STOCKOUT`. -/
def daysLE (a b : StockRow) : Prop :=
  a.days_until_stockout ≤ b.days_until_stockout

instance : DecidableRel daysLE := fun a b =>
  inferInstanceAs (Decidable (a.days_until_stockout ≤ b.days_until_stockout))

/-- `sort_values("DAYS_UNTIL_STOCKOUT")` with the default `kind`
(numpy quicksort).  pandas documents the result as an ascending
reordering of the frame and guarantees stable ties only for
`kind="mergesort"`/`"stable"`, so the sort is specified relationally:
the output is some permutation of the input that is ascending in the
key; which permutation is produced at ties is left open. -/
def SortValuesSpec (input output : List StockRow) : Prop :=
  List.Perm input output ∧ List.Pairwise daysLE output

instance (input output : List StockRow) : Decidable (SortValuesSpec input output) :=
  inferInstanceAs (Decidable (List.Perm input output ∧ List.Pairwise daysLE output))

/-- Line 143: `df[df["STOCK_STATUS"].isin(["CRITICAL", "WARNING"])]`. -/
def alerts_filter (p : List StockRow) : List StockRow :=
  p.filter fun r => ["CRITICAL", "WARNING"].contains r.stock_status

/-- Line 160: `alerts_df[alerts_df["STOCK_STATUS"] == "CRITICAL"].head(3)`,
applied to the (sorted) alert frame. -/
def top_critical (alerts : List StockRow) : List StockRow :=
  (alerts.filter fun r => r.stock_status == "CRITICAL").take 3

/-- Line 179: `df[df["SUGGESTED_REORDER_QTY"] > 0]`. -/
def reorder_filter (p : List StockRow) : List StockRow :=
  p.filter fun r => decide (0 < r.suggested_reorder_qty)

/-- Line 189: `reorder_df["SUGGESTED_REORDER_QTY"].sum()`. -/
def reorder_total_units (l : List StockRow) : ℤ :=
  (l.map fun r => r.suggested_reorder_qty).sum

/-- Line 190: `len(reorder_df[reorder_df["STOCK_STATUS"] == "CRITICAL"])`. -/
def reorder_critical_len (l : List StockRow) : ℕ :=
  (l.filter fun r => r.stock_status == "CRITICAL").length

/-- The alert section either renders the table (with the top-critical
narrative subset) or the explicit all-healthy success state
(lines 146–173). -/
inductive AlertView
  | table : List StockRow → List StockRow → AlertView
  | allHealthy : AlertView
deriving DecidableEq, Repr

/-- Lines 146–173: `if len(alerts_df) > 0: ... else: st.success(...)`. -/
def alert_view (alerts : List StockRow) : AlertView :=
  if 0 < alerts.length then AlertView.table alerts (top_critical alerts)
  else AlertView.allHealthy

/-- The reorder section either renders the table plus the three
roll-up metrics or the explicit no-reorders state (lines 182–201). -/
inductive ReorderView
  | table : List StockRow → ℕ → ℤ → ℕ → ReorderView
  | noReorders : ReorderView
deriving DecidableEq, Repr

/-- Lines 182–201: `if len(reorder_df) > 0: ...` renders the table and
the metrics `len(reorder_df)`, `reorder_df["SUGGESTED_REORDER_QTY"].sum()`
and the critical count; `else: st.info("No reorders needed!")`. -/
def reorder_view (l : List StockRow) : ReorderView :=
  if 0 < l.length then
    ReorderView.table l l.length (reorder_total_units l) (reorder_critical_len l)
  else ReorderView.noReorders

/-- Lines 111–113: one cell of
`df.pivot_table(index="ITEM", columns="LOCATION",
values="DAYS_UNTIL_STOCKOUT", aggfunc="mean")` — the arithmetic mean
of the contributing rows, `none` (pandas `NaN`, tested by `pd.isna` in
`color_days`) when no row has this (item, location) pair. -/
def heatmap_cell (p : List StockRow) (item loc : String) : Option ℚ :=
  if (p.filter fun r => r.item == item && r.location == loc).isEmpty then none
  else some (((p.filter fun r => r.item == item && r.location == loc).map
      fun r => r.days_until_stockout).sum /
    ((p.filter fun r => r.item == item && r.location == loc).length : ℚ))

/-- Lines 154–156: the alert table projection `alerts_df[display_cols]`
with `display_cols = ["LOCATION", "ITEM", "CLOSING_STOCK",
"AVG_DAILY_USAGE", "DAYS_UNTIL_STOCKOUT", "STOCK_STATUS",
"SUGGESTED_REORDER_QTY"]`. -/
def alert_export (l : List StockRow) : List (String × String × ℤ × ℚ × ℚ × String × ℤ) :=
  l.map fun r => (r.location, r.item, r.closing_stock, r.avg_daily_usage,
    r.days_until_stockout, r.stock_status, r.suggested_reorder_qty)

/-- Lines 183–193: the reorder table / CSV projection
`reorder_df[reorder_cols]` with `reorder_cols = ["LOCATION", "ITEM",
"CLOSING_STOCK", "LEAD_TIME_DAYS", "DAYS_UNTIL_STOCKOUT",
"SUGGESTED_REORDER_QTY", "STOCK_STATUS"]`; `to_csv` serializes exactly
these values with no recomputation. -/
def reorder_export (l : List StockRow) : List (String × String × ℤ × ℤ × ℚ × ℤ × String) :=
  l.map fun r => (r.location, r.item, r.closing_stock, r.lead_time_days,
    r.days_until_stockout, r.suggested_reorder_qty, r.stock_status)

/-- Modelled from the specification wording "ties broken by original row order
(stable sort)": insert a row after every strictly earlier key but
before equal keys, so earlier input rows keep precedence.  This is the
*specification-side* notion of a stable ascending sort, to be compared
with the relational behavior of the `sort_values` call in the source. -/
def insertByDays (r : StockRow) : List StockRow → List StockRow
  | [] => [r]
  | x :: xs =>
    if r.days_until_stockout ≤ x.days_until_stockout then r :: x :: xs
    else x :: insertByDays r xs

/-- Modelled from the specification wording: the textbook stable insertion sort
on the `days_until_stockout` key. -/
def stableSortByDays : List StockRow → List StockRow
  | [] => []
  | x :: xs => insertByDays x (stableSortByDays xs)

/-- Fields never assigned by the dashboard pipeline (everything except
`avg_daily_usage`, `days_until_stockout`, `stock_status`). -/
def UntouchedEq (a b : StockRow) : Prop :=
  a.location = b.location ∧ a.item = b.item ∧ a.date = b.date ∧
  a.closing_stock = b.closing_stock ∧ a.issued = b.issued ∧
  a.lead_time_days = b.lead_time_days ∧ a.reorder_level = b.reorder_level ∧
  a.suggested_reorder_qty = b.suggested_reorder_qty

instance (a b : StockRow) : Decidable (UntouchedEq a b) :=
  inferInstanceAs (Decidable (a.location = b.location ∧ a.item = b.item ∧
    a.date = b.date ∧ a.closing_stock = b.closing_stock ∧ a.issued = b.issued ∧
    a.lead_time_days = b.lead_time_days ∧ a.reorder_level = b.reorder_level ∧
    a.suggested_reorder_qty = b.suggested_reorder_qty))

/-! ## Concrete rows and snapshots used by witnesses and counterexamples -/

/-- A template snapshot row; witnesses override the fields they need. -/
def baseRow : StockRow :=
  { location := "Hospital_Mumbai", item := "Insulin_Vials", date := "2025-10-01",
    closing_stock := 0, issued := 0, avg_daily_usage := 0,
    days_until_stockout := 0, stock_status := "",
    suggested_reorder_qty := 0, lead_time_days := 7, reorder_level := 100 }

/-- Boundary row with the depletion horizon exactly 2. -/
def c2Row : StockRow := { baseRow with days_until_stockout := 2 }

/-- Scenario row: 100 units on hand, zero daily usage. -/
def c6Row : StockRow := { baseRow with closing_stock := 100, avg_daily_usage := 0 }

/-- A row whose usage rate is strictly between 0 and the 0.01 epsilon. -/
def c1Row : StockRow := { baseRow with closing_stock := 1, avg_daily_usage := 1/200 }

/-- Scenario row: 100 units on hand, zero usage (horizon 10000.0). -/
def c1wRow : StockRow := { baseRow with closing_stock := 100, avg_daily_usage := 0 }

/-- Row loaded with zero usage and zero stock (classified CRITICAL,
so it reaches the alert table). -/
def c3Row : StockRow := { baseRow with closing_stock := 0, avg_daily_usage := 0 }

/-- Row with nonzero usage whose horizon is critical. -/
def c3wRow : StockRow := { baseRow with closing_stock := 4, avg_daily_usage := 5 }

/-- A healthy row (horizon 10.0, no suggested reorder). -/
def c4Row : StockRow := { baseRow with closing_stock := 10, avg_daily_usage := 1 }

/-- First of two tied CRITICAL rows. -/
def c5Row1 : StockRow := { baseRow with item := "Item_A", closing_stock := 1, avg_daily_usage := 1 }

/-- Second of two tied CRITICAL rows. -/
def c5Row2 : StockRow := { baseRow with item := "Item_B", closing_stock := 1, avg_daily_usage := 1 }

/-- Critical row with a positive suggested quantity. -/
def c7Row1 : StockRow :=
  { baseRow with
    item := "Item_A", closing_stock := 1, avg_daily_usage := 1,
    suggested_reorder_qty := 50 }

/-- Healthy row with a positive suggested quantity and a later horizon. -/
def c7Row2 : StockRow :=
  { baseRow with
    item := "Item_B", closing_stock := 8, avg_daily_usage := 1,
    suggested_reorder_qty := 20 }

/-- Duplicate-pair row with horizon 3.0. -/
def c8Row1 : StockRow := { baseRow with closing_stock := 3, avg_daily_usage := 1 }

/-- Duplicate-pair row with horizon 5.0. -/
def c8Row2 : StockRow := { baseRow with closing_stock := 5, avg_daily_usage := 1 }

/-- Scenario rows with horizons 1.0, 4.0, 8.0, 20.0. -/
def c9Row1 : StockRow := { baseRow with item := "Item_A", closing_stock := 1, avg_daily_usage := 1 }

/-- Horizon 4.0 (WARNING). -/
def c9Row2 : StockRow := { baseRow with item := "Item_B", closing_stock := 4, avg_daily_usage := 1 }

/-- Horizon 8.0 (HEALTHY). -/
def c9Row3 : StockRow := { baseRow with item := "Item_C", closing_stock := 8, avg_daily_usage := 1 }

/-- Horizon 20.0 (OVERSTOCK). -/
def c9Row4 : StockRow := { baseRow with item := "Item_D", closing_stock := 20, avg_daily_usage := 1 }

/-- The classified four-row scenario snapshot. -/
def c9Snap : List StockRow := processSnapshot [c9Row1, c9Row2, c9Row3, c9Row4]

/-- Its alert selection (already ascending: horizons 1.0, 4.0). -/
def c9Out : List StockRow := alerts_filter c9Snap

/-- A critical row that reaches both the alert and the reorder table. -/
def c10Row : StockRow :=
  { baseRow with
    item := "Item_A", closing_stock := 1, avg_daily_usage := 1,
    suggested_reorder_qty := 5 }

/-- Its classified snapshot. -/
def c10Snap : List StockRow := processSnapshot [c10Row]

/-! ## Plumbing lemmas -/

theorem processSnapshot_eq_map (df : List StockRow) :
    processSnapshot df = df.map procRow := by
  simp only [processSnapshot, applyStockStatus, applyDaysUntilStockout,
    applyUsageReplace, List.map_map]
  rfl

theorem mem_processSnapshot {x : StockRow} {df : List StockRow} :
    x ∈ processSnapshot df ↔ ∃ r ∈ df, procRow r = x := by
  rw [processSnapshot_eq_map]
  exact List.mem_map

theorem procRow_usage (r : StockRow) :
    (procRow r).avg_daily_usage = replaceZeroUsage r.avg_daily_usage := rfl

theorem procRow_days (r : StockRow) :
    (procRow r).days_until_stockout =
      round1 ((r.closing_stock : ℚ) / replaceZeroUsage r.avg_daily_usage) := rfl

theorem procRow_status (r : StockRow) :
    (procRow r).stock_status = classify_stock (procRow r) := rfl

theorem procRow_untouched (r : StockRow) : UntouchedEq (procRow r) r :=
  ⟨rfl, rfl, rfl, rfl, rfl, rfl, rfl, rfl⟩

theorem replaceZeroUsage_pos {u : ℚ} (h : 0 ≤ u) : 0 < replaceZeroUsage u := by
  unfold replaceZeroUsage
  split_ifs with hu
  · norm_num
  · exact h.lt_of_ne (Ne.symm hu)

theorem roundHalfEven_nonneg {x : ℚ} (h : 0 ≤ x) : 0 ≤ roundHalfEven x := by
  have hf : (0 : ℤ) ≤ x.floor := Rat.le_floor.mpr (by exact_mod_cast h)
  unfold roundHalfEven
  split_ifs <;> omega

theorem round1_nonneg {x : ℚ} (h : 0 ≤ x) : 0 ≤ round1 x := by
  unfold round1
  have := roundHalfEven_nonneg (show (0:ℚ) ≤ 10 * x by linarith)
  have h10 : (0:ℚ) ≤ (roundHalfEven (10 * x) : ℚ) := by exact_mod_cast this
  positivity

theorem contains_pair_eq (s : String) :
    (["CRITICAL", "WARNING"].contains s) =
      decide (s = "CRITICAL" ∨ s = "WARNING") := by
  by_cases h1 : s = "CRITICAL" <;> by_cases h2 : s = "WARNING" <;>
    simp [h1, h2]

theorem alerts_filter_eq (p : List StockRow) :
    alerts_filter p =
      p.filter fun r => decide (r.stock_status = "CRITICAL" ∨ r.stock_status = "WARNING") := by
  unfold alerts_filter
  exact List.filter_congr fun r _ => contains_pair_eq r.stock_status

/-! ## C2 — status classifier -/

/-- C2: for every `days_until_stockout ≥ 0` the classifier assigns
exactly one bucket: `CRITICAL` iff the value is `≤ 2`, `WARNING` iff it
is in `(2, 5]`, `HEALTHY` iff it is in `(5, 10]`, `OVERSTOCK` iff it is
`> 10`; the boundary values 2, 5, 10 therefore land in the more urgent
bucket and 10.1 in `OVERSTOCK`. -/
theorem c2_status_classifier (row : StockRow) (h : 0 ≤ row.days_until_stockout) :
    (classify_stock row = "CRITICAL" ↔ row.days_until_stockout ≤ 2) ∧
    (classify_stock row = "WARNING" ↔
      2 < row.days_until_stockout ∧ row.days_until_stockout ≤ 5) ∧
    (classify_stock row = "HEALTHY" ↔
      5 < row.days_until_stockout ∧ row.days_until_stockout ≤ 10) ∧
    (classify_stock row = "OVERSTOCK" ↔ 10 < row.days_until_stockout) := by
  have hCW : ("CRITICAL" : String) ≠ "WARNING" := by decide
  have hCH : ("CRITICAL" : String) ≠ "HEALTHY" := by decide
  have hCO : ("CRITICAL" : String) ≠ "OVERSTOCK" := by decide
  have hWH : ("WARNING" : String) ≠ "HEALTHY" := by decide
  have hWO : ("WARNING" : String) ≠ "OVERSTOCK" := by decide
  have hHO : ("HEALTHY" : String) ≠ "OVERSTOCK" := by decide
  unfold classify_stock
  split_ifs with h1 h2 h3 <;>
    refine ⟨?_, ?_, ?_, ?_⟩ <;>
    constructor <;>
    intro hx <;>
    first
      | rfl
      | linarith
      | (exact absurd hx (by assumption))
      | (exact absurd hx (Ne.symm (by assumption)))
      | (exact ⟨by linarith, by linarith⟩)

theorem c2_status_classifier_witness :
    0 ≤ c2Row.days_until_stockout ∧
    ((classify_stock c2Row = "CRITICAL" ↔ c2Row.days_until_stockout ≤ 2) ∧
    (classify_stock c2Row = "WARNING" ↔
      2 < c2Row.days_until_stockout ∧ c2Row.days_until_stockout ≤ 5) ∧
    (classify_stock c2Row = "HEALTHY" ↔
      5 < c2Row.days_until_stockout ∧ c2Row.days_until_stockout ≤ 10) ∧
    (classify_stock c2Row = "OVERSTOCK" ↔ 10 < c2Row.days_until_stockout)) :=
  ⟨by with_unfolding_all decide, c2_status_classifier c2Row (by with_unfolding_all decide)⟩

/-! ## C6 — depletion horizon is finite and non-negative -/

/-- C6: over the documented domain (`closing_stock ≥ 0`,
`avg_daily_usage ≥ 0`) the `days_until_stockout` of every processed row is
the rounded quotient by a strictly positive divisor (so the
division-by-zero branch is unreachable, also for zero usage) and is
non-negative. -/
theorem c6_days_safe (df : List StockRow)
    (h : ∀ r ∈ df, 0 ≤ r.closing_stock ∧ 0 ≤ r.avg_daily_usage) :
    ∀ x ∈ processSnapshot df, ∃ r ∈ df,
      0 < replaceZeroUsage r.avg_daily_usage ∧
      x.days_until_stockout =
        round1 ((r.closing_stock : ℚ) / replaceZeroUsage r.avg_daily_usage) ∧
      0 ≤ x.days_until_stockout := by
  intro x hx
  obtain ⟨r, hr, rfl⟩ := mem_processSnapshot.mp hx
  obtain ⟨hc, hu⟩ := h r hr
  refine ⟨r, hr, replaceZeroUsage_pos hu, procRow_days r, ?_⟩
  rw [procRow_days]
  exact round1_nonneg
    (div_nonneg (by exact_mod_cast hc) (le_of_lt (replaceZeroUsage_pos hu)))

theorem c6_days_safe_witness :
    (∀ r ∈ [c6Row], 0 ≤ r.closing_stock ∧ 0 ≤ r.avg_daily_usage) ∧
    ∀ x ∈ processSnapshot [c6Row], ∃ r ∈ [c6Row],
      0 < replaceZeroUsage r.avg_daily_usage ∧
      x.days_until_stockout =
        round1 ((r.closing_stock : ℚ) / replaceZeroUsage r.avg_daily_usage) ∧
      0 ≤ x.days_until_stockout :=
  ⟨by with_unfolding_all decide,
   c6_days_safe [c6Row] (by with_unfolding_all decide)⟩

/-! ## C1 — the divisor of the risk calculator -/

/-- C1 as stated is false: for `avg_daily_usage = 0.005` (< 0.01) the
code divides by 0.005 itself — `replace(0, 0.01)` touches only the
exact value 0 — so the computed horizon is 200.0, not
`round(1 / max(0.005, 0.01), 1) = 100.0`. -/
theorem c1_risk_formula_counterexample :
    0 ≤ c1Row.closing_stock ∧ 0 ≤ c1Row.avg_daily_usage ∧
    (processSnapshot [c1Row]).map (fun r => r.days_until_stockout) ≠
      [round1 ((c1Row.closing_stock : ℚ) / max c1Row.avg_daily_usage (1/100))] := by
  refine ⟨by decide, by with_unfolding_all decide, by with_unfolding_all decide⟩

/-- C1 amended: the divisor is `avg_daily_usage` with the exact value 0
replaced by 0.01 (values strictly between 0 and 0.01 are used as-is);
this agrees with the claimed `max(avg_daily_usage, 0.01)` divisor
whenever the usage is 0 or at least 0.01. -/
theorem c1_risk_formula_amended (df : List StockRow) (r : StockRow) (hr : r ∈ df)
    (hc : 0 ≤ r.closing_stock) (hu : 0 ≤ r.avg_daily_usage) :
    procRow r ∈ processSnapshot df ∧
    (procRow r).days_until_stockout =
      round1 ((r.closing_stock : ℚ) /
        (if r.avg_daily_usage = 0 then 1/100 else r.avg_daily_usage)) ∧
    (r.avg_daily_usage = 0 ∨ 1/100 ≤ r.avg_daily_usage →
      (procRow r).days_until_stockout =
        round1 ((r.closing_stock : ℚ) / max r.avg_daily_usage (1/100))) := by
  refine ⟨?_, procRow_days r, ?_⟩
  · rw [processSnapshot_eq_map]
    exact List.mem_map_of_mem procRow hr
  · rintro (h0 | hge)
    · rw [procRow_days, replaceZeroUsage, h0]
      norm_num
    · have hne : r.avg_daily_usage ≠ 0 := by
        intro h0
        rw [h0] at hge
        norm_num at hge
      rw [procRow_days, replaceZeroUsage, if_neg hne, max_eq_left hge]

theorem c1_risk_formula_amended_witness :
    c1wRow ∈ [c1wRow] ∧ 0 ≤ c1wRow.closing_stock ∧ 0 ≤ c1wRow.avg_daily_usage ∧
    (procRow c1wRow ∈ processSnapshot [c1wRow] ∧
    (procRow c1wRow).days_until_stockout =
      round1 ((c1wRow.closing_stock : ℚ) /
        (if c1wRow.avg_daily_usage = 0 then 1/100 else c1wRow.avg_daily_usage)) ∧
    (c1wRow.avg_daily_usage = 0 ∨ 1/100 ≤ c1wRow.avg_daily_usage →
      (procRow c1wRow).days_until_stockout =
        round1 ((c1wRow.closing_stock : ℚ) / max c1wRow.avg_daily_usage (1/100)))) :=
  ⟨List.mem_singleton_self c1wRow, by decide, by with_unfolding_all decide,
   c1_risk_formula_amended [c1wRow] c1wRow (List.mem_singleton_self c1wRow)
     (by decide) (by with_unfolding_all decide)⟩

/-! ## C3 — what the alert table reports for `avg_daily_usage` -/

/-- C3 as stated is false: line 66 overwrites the stored
`AVG_DAILY_USAGE` column in place, so the alert table columns and the
top-critical narrative report the replaced value — a row loaded with
usage 0 is reported with 0.01, not 0. -/
theorem c3_usage_preserved_counterexample :
    c3Row.avg_daily_usage = 0 ∧
    SortValuesSpec (alerts_filter (processSnapshot [c3Row]))
      (alerts_filter (processSnapshot [c3Row])) ∧
    (alerts_filter (processSnapshot [c3Row])).map (fun r => r.avg_daily_usage)
      = [1/100] ∧
    (alerts_filter (processSnapshot [c3Row])).map (fun r => r.avg_daily_usage)
      ≠ [0] ∧
    (top_critical (alerts_filter (processSnapshot [c3Row]))).map
      (fun r => r.avg_daily_usage) = [1/100] := by
  refine ⟨?_, ?_, ?_, ?_, ?_⟩ <;> with_unfolding_all decide

/-- C3 amended: every row of the (sorted) alert output reports the
post-replacement usage — unchanged whenever the loaded usage was
nonzero, and 0.01 exactly when the loaded usage was 0. -/
theorem c3_usage_replaced_amended (df : List StockRow) (out : List StockRow)
    (h : SortValuesSpec (alerts_filter (processSnapshot df)) out) :
    ∀ x ∈ out, ∃ r ∈ df,
      x.avg_daily_usage = replaceZeroUsage r.avg_daily_usage ∧
      (r.avg_daily_usage ≠ 0 → x.avg_daily_usage = r.avg_daily_usage) ∧
      (r.avg_daily_usage = 0 → x.avg_daily_usage = 1/100) := by
  intro x hx
  have hx1 : x ∈ alerts_filter (processSnapshot df) := (h.1.mem_iff).mpr hx
  have hx2 : x ∈ processSnapshot df := List.mem_of_mem_filter hx1
  obtain ⟨r, hr, rfl⟩ := mem_processSnapshot.mp hx2
  refine ⟨r, hr, procRow_usage r, ?_, ?_⟩
  · intro hne
    rw [procRow_usage, replaceZeroUsage, if_neg hne]
  · intro h0
    rw [procRow_usage, replaceZeroUsage, if_pos h0]

theorem c3_usage_replaced_amended_witness :
    SortValuesSpec (alerts_filter (processSnapshot [c3wRow]))
      (alerts_filter (processSnapshot [c3wRow])) ∧
    ∀ x ∈ alerts_filter (processSnapshot [c3wRow]), ∃ r ∈ [c3wRow],
      x.avg_daily_usage = replaceZeroUsage r.avg_daily_usage ∧
      (r.avg_daily_usage ≠ 0 → x.avg_daily_usage = r.avg_daily_usage) ∧
      (r.avg_daily_usage = 0 → x.avg_daily_usage = 1/100) :=
  ⟨by with_unfolding_all decide,
   c3_usage_replaced_amended [c3wRow] _ (by with_unfolding_all decide)⟩

/-! ## C4 — empty snapshot -/

/-- C4 as stated is false at the explicit input `[]`: lines 85–87 show
the blocking "No data found" error and `st.stop()` halts the script, so
the run aborts and no downstream component produces its degraded
output. -/
theorem c4_empty_snapshot_counterexample :
    dashboardRun [] = Except.error noDataMessage ∧
    ∀ p : List StockRow, dashboardRun [] ≠ Except.ok p := by
  constructor
  · rfl
  · intro p hp
    rw [show dashboardRun [] = Except.error noDataMessage from rfl] at hp
    exact Except.noConfusion hp

/-- C4 amended: a zero-row snapshot is fatal — the dashboard stops with
the "No data found" error before any downstream output; the explicit
"all healthy" and "no reorders needed" states are rendered only for
non-empty snapshots whose alert (resp. reorder) selection is empty. -/
theorem c4_empty_snapshot_amended (df : List StockRow) :
    (df = [] → dashboardRun df = Except.error noDataMessage) ∧
    (df ≠ [] → dashboardRun df = Except.ok (processSnapshot df)) ∧
    (alerts_filter (processSnapshot df) = [] →
      alert_view (alerts_filter (processSnapshot df)) = AlertView.allHealthy) ∧
    (reorder_filter (processSnapshot df) = [] →
      reorder_view (reorder_filter (processSnapshot df)) = ReorderView.noReorders) := by
  refine ⟨?_, ?_, ?_, ?_⟩
  · rintro rfl
    rfl
  · intro hne
    have hlen : processSnapshot df ≠ [] := by
      rw [processSnapshot_eq_map]
      simpa using hne
    unfold dashboardRun
    rw [if_neg (by simpa [List.isEmpty_iff] using hlen)]
  · intro h0
    rw [h0]
    rfl
  · intro h0
    rw [h0]
    rfl

theorem c4_empty_snapshot_amended_witness :
    dashboardRun [] = Except.error noDataMessage ∧
    dashboardRun [c4Row] = Except.ok (processSnapshot [c4Row]) ∧
    alert_view (alerts_filter (processSnapshot [c4Row])) = AlertView.allHealthy ∧
    reorder_view (reorder_filter (processSnapshot [c4Row])) = ReorderView.noReorders :=
  ⟨(c4_empty_snapshot_amended []).1 rfl,
   (c4_empty_snapshot_amended [c4Row]).2.1 (by decide),
   (c4_empty_snapshot_amended [c4Row]).2.2.1 (by with_unfolding_all decide),
   (c4_empty_snapshot_amended [c4Row]).2.2.2 (by with_unfolding_all decide)⟩

/-! ## C5 — alert list: selection, order, and (non-)stability -/

/-- C5 fails in its stable-tie conjunct:
`sort_values` is called with the default `kind` (numpy quicksort),
which guarantees only an ascending reordering.  At this concrete
two-row snapshot (both horizons 1.0, both CRITICAL) the reversed
selection satisfies the sort contract yet differs from the stable
order of the input. -/
theorem c5_alert_order_counterexample :
    SortValuesSpec (alerts_filter (processSnapshot [c5Row1, c5Row2]))
      (alerts_filter (processSnapshot [c5Row1, c5Row2])).reverse ∧
    (alerts_filter (processSnapshot [c5Row1, c5Row2])).reverse ≠
      stableSortByDays (alerts_filter (processSnapshot [c5Row1, c5Row2])) := by
  constructor <;> with_unfolding_all decide

/-- C5 amended: the alert output is a permutation of exactly the
CRITICAL/WARNING rows of the classified snapshot and is ascending in
`days_until_stockout`; the relative order of tied rows is unspecified
(the default quicksort gives no stability guarantee). -/
theorem c5_alert_list_amended (input out : List StockRow)
    (h : SortValuesSpec (alerts_filter input) out) :
    List.Perm out (input.filter fun r =>
      decide (r.stock_status = "CRITICAL" ∨ r.stock_status = "WARNING")) ∧
    List.Pairwise daysLE out := by
  refine ⟨?_, h.2⟩
  have hp := h.1
  rw [alerts_filter_eq] at hp
  exact hp.symm

theorem c5_alert_list_amended_witness :
    SortValuesSpec (alerts_filter (processSnapshot [c5Row1, c5Row2]))
      (alerts_filter (processSnapshot [c5Row1, c5Row2])) ∧
    (List.Perm (alerts_filter (processSnapshot [c5Row1, c5Row2]))
      ((processSnapshot [c5Row1, c5Row2]).filter fun r =>
        decide (r.stock_status = "CRITICAL" ∨ r.stock_status = "WARNING")) ∧
    List.Pairwise daysLE (alerts_filter (processSnapshot [c5Row1, c5Row2]))) :=
  ⟨by with_unfolding_all decide,
   c5_alert_list_amended (processSnapshot [c5Row1, c5Row2]) _
     (by with_unfolding_all decide)⟩

/-! ## C7 — reorder list and roll-ups -/

/-- C7: the reorder output is a permutation of exactly the rows with a
positive `suggested_reorder_qty`, is ascending in
`days_until_stockout`, and the three reported roll-up scalars equal
the count of selected rows, the sum of their quantities, and the count
of selected CRITICAL rows. -/
theorem c7_reorder_list (input out : List StockRow)
    (h : SortValuesSpec (reorder_filter input) out) :
    List.Perm out (input.filter fun r => decide (0 < r.suggested_reorder_qty)) ∧
    List.Pairwise daysLE out ∧
    out.length = (reorder_filter input).length ∧
    reorder_total_units out = reorder_total_units (reorder_filter input) ∧
    reorder_critical_len out = reorder_critical_len (reorder_filter input) ∧
    (0 < out.length →
      reorder_view out = ReorderView.table out out.length
        (reorder_total_units out) (reorder_critical_len out)) := by
  obtain ⟨hperm, hsorted⟩ := h
  refine ⟨hperm.symm, hsorted, hperm.symm.length_eq, ?_, ?_, ?_⟩
  · exact (hperm.symm.map fun r => r.suggested_reorder_qty).sum_eq
  · exact (hperm.symm.filter fun r => r.stock_status == "CRITICAL").length_eq
  · intro hpos
    unfold reorder_view
    rw [if_pos hpos]

theorem c7_reorder_list_witness :
    SortValuesSpec (reorder_filter (processSnapshot [c7Row1, c7Row2]))
      (reorder_filter (processSnapshot [c7Row1, c7Row2])) ∧
    (List.Perm (reorder_filter (processSnapshot [c7Row1, c7Row2]))
      ((processSnapshot [c7Row1, c7Row2]).filter fun r =>
        decide (0 < r.suggested_reorder_qty)) ∧
    List.Pairwise daysLE (reorder_filter (processSnapshot [c7Row1, c7Row2])) ∧
    (reorder_filter (processSnapshot [c7Row1, c7Row2])).length =
      (reorder_filter (processSnapshot [c7Row1, c7Row2])).length ∧
    reorder_total_units (reorder_filter (processSnapshot [c7Row1, c7Row2])) =
      reorder_total_units (reorder_filter (processSnapshot [c7Row1, c7Row2])) ∧
    reorder_critical_len (reorder_filter (processSnapshot [c7Row1, c7Row2])) =
      reorder_critical_len (reorder_filter (processSnapshot [c7Row1, c7Row2])) ∧
    (0 < (reorder_filter (processSnapshot [c7Row1, c7Row2])).length →
      reorder_view (reorder_filter (processSnapshot [c7Row1, c7Row2])) =
        ReorderView.table (reorder_filter (processSnapshot [c7Row1, c7Row2]))
          (reorder_filter (processSnapshot [c7Row1, c7Row2])).length
          (reorder_total_units (reorder_filter (processSnapshot [c7Row1, c7Row2])))
          (reorder_critical_len (reorder_filter (processSnapshot [c7Row1, c7Row2]))))) :=
  ⟨by with_unfolding_all decide,
   c7_reorder_list (processSnapshot [c7Row1, c7Row2]) _
     (by with_unfolding_all decide)⟩

/-! ## C8 — risk matrix cells -/

/-- C8: a pivot cell for a pair occurring in the snapshot is the
arithmetic mean of `days_until_stockout` over all rows sharing the
pair (duplicates are averaged, never an error); a cell for an absent
pair is the distinct no-data value `none`, never equal to a numeric
value (in particular never a coerced zero). -/
theorem c8_heatmap_mean (p : List StockRow) (item loc : String) :
    ((∃ r ∈ p, r.item = item ∧ r.location = loc) →
      heatmap_cell p item loc =
        some (((p.filter fun r => r.item == item && r.location == loc).map
            fun r => r.days_until_stockout).sum /
          ((p.filter fun r => r.item == item && r.location == loc).length : ℚ))) ∧
    ((¬ ∃ r ∈ p, r.item = item ∧ r.location = loc) →
      heatmap_cell p item loc = none) ∧
    (∀ q : ℚ, heatmap_cell p item loc = none → heatmap_cell p item loc ≠ some q) := by
  have hiff : ((p.filter fun r => r.item == item && r.location == loc) = []) ↔
      ¬ ∃ r ∈ p, r.item = item ∧ r.location = loc := by
    rw [List.filter_eq_nil_iff]
    constructor
    · rintro hall ⟨r, hr, h1, h2⟩
      exact absurd (by simp [h1, h2]) (hall r hr)
    · intro hnex r hr hb
      refine hnex ⟨r, hr, ?_⟩
      simpa using hb
  refine ⟨?_, ?_, ?_⟩
  · intro hex
    have hne : (p.filter fun r => r.item == item && r.location == loc) ≠ [] :=
      fun h0 => (hiff.mp h0) hex
    unfold heatmap_cell
    rw [if_neg (by simpa [List.isEmpty_iff] using hne)]
  · intro hnex
    unfold heatmap_cell
    rw [if_pos (by simp [List.isEmpty_iff, hiff.mpr hnex])]
  · intro q hnone hsome
    rw [hnone] at hsome
    exact Option.noConfusion hsome

theorem c8_heatmap_mean_witness :
    (∃ r ∈ processSnapshot [c8Row1, c8Row2],
      r.item = "Insulin_Vials" ∧ r.location = "Hospital_Mumbai") ∧
    heatmap_cell (processSnapshot [c8Row1, c8Row2]) "Insulin_Vials" "Hospital_Mumbai" =
      some ((((processSnapshot [c8Row1, c8Row2]).filter fun r =>
          r.item == "Insulin_Vials" && r.location == "Hospital_Mumbai").map
            fun r => r.days_until_stockout).sum /
        (((processSnapshot [c8Row1, c8Row2]).filter fun r =>
          r.item == "Insulin_Vials" && r.location == "Hospital_Mumbai").length : ℚ)) ∧
    heatmap_cell (processSnapshot [c8Row1, c8Row2]) "Insulin_Vials" "Hospital_Mumbai" =
      some 4 ∧
    (¬ ∃ r ∈ processSnapshot [c8Row1, c8Row2],
      r.item = "Syringes" ∧ r.location = "Hospital_Mumbai") ∧
    heatmap_cell (processSnapshot [c8Row1, c8Row2]) "Syringes" "Hospital_Mumbai" = none :=
  ⟨by with_unfolding_all decide,
   (c8_heatmap_mean (processSnapshot [c8Row1, c8Row2]) "Insulin_Vials"
     "Hospital_Mumbai").1 (by with_unfolding_all decide),
   by with_unfolding_all decide,
   by with_unfolding_all decide,
   (c8_heatmap_mean (processSnapshot [c8Row1, c8Row2]) "Syringes"
     "Hospital_Mumbai").2.1 (by with_unfolding_all decide)⟩

/-! ## C9 — top-critical narrative subset -/

/-- C9: the highlight subset is the first `min(3, k)` entries, in
order, of the alert ordering restricted to CRITICAL rows; with fewer
than 3 CRITICAL rows all of them are returned, and with none the
subset is empty (no error). -/
theorem c9_top_critical_subset (input out : List StockRow)
    (h : SortValuesSpec (alerts_filter input) out) :
    top_critical out = (out.filter fun r => r.stock_status == "CRITICAL").take 3 ∧
    (top_critical out).length =
      min 3 (out.filter fun r => r.stock_status == "CRITICAL").length ∧
    ((out.filter fun r => r.stock_status == "CRITICAL").length < 3 →
      top_critical out = out.filter fun r => r.stock_status == "CRITICAL") ∧
    ((out.filter fun r => r.stock_status == "CRITICAL") = [] →
      top_critical out = []) ∧
    List.Pairwise daysLE (top_critical out) ∧
    ∃ rest, (out.filter fun r => r.stock_status == "CRITICAL") =
      top_critical out ++ rest := by
  refine ⟨rfl, List.length_take 3 _, ?_, ?_, ?_, ?_⟩
  · intro hlt
    unfold top_critical
    exact List.take_of_length_le (le_of_lt hlt)
  · intro h0
    unfold top_critical
    rw [h0]
    rfl
  · exact List.Pairwise.sublist (List.take_sublist 3 _) (h.2.filter _)
  · refine ⟨(out.filter fun r => r.stock_status == "CRITICAL").drop 3, ?_⟩
    unfold top_critical
    exact (List.take_append_drop 3 _).symm

theorem c9_top_critical_subset_witness :
    SortValuesSpec (alerts_filter c9Snap) c9Out ∧
    (top_critical c9Out = (c9Out.filter fun r => r.stock_status == "CRITICAL").take 3 ∧
    (top_critical c9Out).length =
      min 3 (c9Out.filter fun r => r.stock_status == "CRITICAL").length ∧
    ((c9Out.filter fun r => r.stock_status == "CRITICAL").length < 3 →
      top_critical c9Out = c9Out.filter fun r => r.stock_status == "CRITICAL") ∧
    ((c9Out.filter fun r => r.stock_status == "CRITICAL") = [] →
      top_critical c9Out = []) ∧
    List.Pairwise daysLE (top_critical c9Out) ∧
    ∃ rest, (c9Out.filter fun r => r.stock_status == "CRITICAL") =
      top_critical c9Out ++ rest) :=
  ⟨by with_unfolding_all decide,
   c9_top_critical_subset c9Snap c9Out (by with_unfolding_all decide)⟩

/-! ## C10 — untouched columns reach the outputs unchanged -/

/-- C10: the dashboard overwrites only `AVG_DAILY_USAGE`,
`DAYS_UNTIL_STOCKOUT` and `STOCK_STATUS`; every other loaded field of
every row reaches the processed frame, the (sorted) alert and reorder
tables and the CSV projection unchanged from the loaded snapshot. -/
theorem c10_untouched_fields (df outA outR : List StockRow)
    (hA : SortValuesSpec (alerts_filter (processSnapshot df)) outA)
    (hR : SortValuesSpec (reorder_filter (processSnapshot df)) outR) :
    (∀ x ∈ processSnapshot df, ∃ r ∈ df, x = procRow r ∧ UntouchedEq x r) ∧
    (∀ x ∈ outA, ∃ r ∈ df, UntouchedEq x r) ∧
    (∀ x ∈ outR, ∃ r ∈ df, UntouchedEq x r) ∧
    (∀ t ∈ alert_export outA, ∃ r ∈ df,
      t.1 = r.location ∧ t.2.1 = r.item ∧ t.2.2.1 = r.closing_stock ∧
      t.2.2.2.2.2.2 = r.suggested_reorder_qty) ∧
    (∀ t ∈ reorder_export outR, ∃ r ∈ df,
      t.1 = r.location ∧ t.2.1 = r.item ∧ t.2.2.1 = r.closing_stock ∧
      t.2.2.2.1 = r.lead_time_days ∧
      t.2.2.2.2.2.1 = r.suggested_reorder_qty) := by
  have hproc : ∀ x ∈ processSnapshot df, ∃ r ∈ df, x = procRow r ∧ UntouchedEq x r := by
    intro x hx
    obtain ⟨r, hr, hre⟩ := mem_processSnapshot.mp hx
    exact ⟨r, hr, hre.symm, hre ▸ procRow_untouched r⟩
  have hmemA : ∀ x ∈ outA, ∃ r ∈ df, UntouchedEq x r := by
    intro x hx
    have hx1 : x ∈ alerts_filter (processSnapshot df) := (hA.1.mem_iff).mpr hx
    obtain ⟨r, hr, _, hu⟩ := hproc x (List.mem_of_mem_filter hx1)
    exact ⟨r, hr, hu⟩
  have hmemR : ∀ x ∈ outR, ∃ r ∈ df, UntouchedEq x r := by
    intro x hx
    have hx1 : x ∈ reorder_filter (processSnapshot df) := (hR.1.mem_iff).mpr hx
    obtain ⟨r, hr, _, hu⟩ := hproc x (List.mem_of_mem_filter hx1)
    exact ⟨r, hr, hu⟩
  refine ⟨hproc, hmemA, hmemR, ?_, ?_⟩
  · intro t ht
    obtain ⟨x, hx, rfl⟩ := List.mem_map.mp ht
    obtain ⟨r, hr, hu⟩ := hmemA x hx
    exact ⟨r, hr, hu.1, hu.2.1, hu.2.2.2.1, hu.2.2.2.2.2.2.2⟩
  · intro t ht
    obtain ⟨x, hx, rfl⟩ := List.mem_map.mp ht
    obtain ⟨r, hr, hu⟩ := hmemR x hx
    exact ⟨r, hr, hu.1, hu.2.1, hu.2.2.2.1, hu.2.2.2.2.2.1, hu.2.2.2.2.2.2.2⟩

theorem c10_untouched_fields_witness :
    SortValuesSpec (alerts_filter c10Snap) (alerts_filter c10Snap) ∧
    SortValuesSpec (reorder_filter c10Snap) (reorder_filter c10Snap) ∧
    ((∀ x ∈ c10Snap, ∃ r ∈ [c10Row], x = procRow r ∧ UntouchedEq x r) ∧
    (∀ x ∈ alerts_filter c10Snap, ∃ r ∈ [c10Row], UntouchedEq x r) ∧
    (∀ x ∈ reorder_filter c10Snap, ∃ r ∈ [c10Row], UntouchedEq x r) ∧
    (∀ t ∈ alert_export (alerts_filter c10Snap), ∃ r ∈ [c10Row],
      t.1 = r.location ∧ t.2.1 = r.item ∧ t.2.2.1 = r.closing_stock ∧
      t.2.2.2.2.2.2 = r.suggested_reorder_qty) ∧
    (∀ t ∈ reorder_export (reorder_filter c10Snap), ∃ r ∈ [c10Row],
      t.1 = r.location ∧ t.2.1 = r.item ∧ t.2.2.1 = r.closing_stock ∧
      t.2.2.2.1 = r.lead_time_days ∧
      t.2.2.2.2.2.1 = r.suggested_reorder_qty)) :=
  ⟨by with_unfolding_all decide, by with_unfolding_all decide,
   c10_untouched_fields [c10Row] (alerts_filter c10Snap) (reorder_filter c10Snap)
     (by with_unfolding_all decide) (by with_unfolding_all decide)⟩
